import Mathlib

/-!
Verification development for the Omniscience v2.2 ingestion service
(`app.py`): a Flask application that ingests batting-sensor CSV/ZIP
uploads, runs structural corruption checks, derives delta/oscillator
columns over a trailing window, projects rows onto the persisted schema
and commits the batch in one step.

The embedding is shallow:
* a pandas cell is a `Value` (rational number, string, boolean,
  timestamp, or the not-a-number marker `Value.nan`);
* a DataFrame is a `Frame`: an ordered association list from column
  name to cell list (column names are unique in frames produced by
  `pd.read_csv`, and `setCol` models pandas column assignment:
  replace in place, else append);
* Python floats are modelled as rationals.  The square root used by
  `Series.rolling(w).std()` is kept as an explicit parameter `sq` of
  every pipeline function; no theorem below depends on its values, so
  each theorem holds in particular for the true square root;
* fallible Python code returns `Except String`;
* byte streams are modelled by the observations the code makes of
  them: the CSV records a `csv.reader` yields from the stream, the ZIP
  directory listing, the `pd.read_csv` outcome, and an explicit read
  cursor `pos` for the `tell`/`seek` contract.
-/

/-- A pandas cell value: number, string, boolean, timestamp, or the
not-a-number marker (`np.nan` / missing). -/
inductive Value where
  | num (q : ℚ)
  | str (s : String)
  | bool (b : Bool)
  | time (t : Nat)
  | nan
deriving DecidableEq, Repr

/-- `pd.isna`: true exactly on the not-a-number marker. -/
def isNA : Value → Bool
  | Value.nan => true
  | _ => false

/-- Value of a digit string, if every character is a digit. -/
def digitsVal (cs : List Char) : Option Nat :=
  cs.foldl
    (fun acc c =>
      match acc with
      | none => none
      | some n => if c.isDigit then some (n * 10 + (c.toNat - 48)) else none)
    (some 0)

/-- Numeric coercion of a string, as `pd.to_numeric(errors='coerce')`
performs it on plain decimal literals: optional sign, integer part,
optional fractional part.  (Exponents, infinities and surrounding
whitespace are not modelled; no claim depends on them.) -/
def parseNumStr (s : String) : Option ℚ :=
  let cs := s.data
  let signed : ℚ × List Char :=
    match cs with
    | '-' :: rest => (-1, rest)
    | '+' :: rest => (1, rest)
    | _ => (1, cs)
  match signed.2.splitOn '.' with
  | [ip] =>
      if ip.isEmpty then none
      else (digitsVal ip).map (fun n => signed.1 * n)
  | [ip, fp] =>
      if ip.isEmpty && fp.isEmpty then none
      else
        match digitsVal ip, digitsVal fp with
        | some n, some m =>
            some (signed.1 * ((n : ℚ) + (m : ℚ) / ((10 : ℚ) ^ fp.length)))
        | _, _ => none
  | _ => none

/-- `pd.to_numeric(·, errors='coerce')` on one cell: numbers pass
through, booleans become 0/1, numeric strings are parsed, everything
else coerces to the not-a-number marker (`none`). -/
def toNumeric : Value → Option ℚ
  | Value.num q => some q
  | Value.bool b => some (if b then 1 else 0)
  | Value.str s => parseNumStr s
  | Value.time _ => none
  | Value.nan => none

/-- Back from the numeric domain to a cell: `none` is the NaN cell. -/
def optVal : Option ℚ → Value
  | some q => Value.num q
  | none => Value.nan

/-- NaN-propagating subtraction on the numeric domain. -/
def omSub : Option ℚ → Option ℚ → Option ℚ
  | some a, some b => some (a - b)
  | _, _ => none

/-- A DataFrame: ordered association list, column name to cells. -/
def Frame : Type := List (String × List Value)

instance : DecidableEq Frame := by
  unfold Frame; infer_instance

/-- Column lookup (`col in df.columns` / `df[col]`). -/
def getCol : Frame → String → Option (List Value)
  | [], _ => none
  | p :: df, n => if p.1 = n then some p.2 else getCol df n

/-- Column assignment `df[n] = cells`: replace the existing column in
place, else append a new column at the end. -/
def setCol : Frame → String → List Value → Frame
  | [], n, cells => [(n, cells)]
  | p :: df, n, cells =>
      if p.1 = n then (n, cells) :: df else p :: setCol df n cells

/-- Number of rows of a frame (length of its first column; parsed
frames have all columns of equal length). -/
def nRows : Frame → Nat
  | [] => 0
  | p :: _ => p.2.length

/-- `Series.diff()` at index `i`: `c[i] - c[i-1]`, not-a-number at
index 0 or when either operand is not-a-number. -/
def diffIdx (c : List (Option ℚ)) (i : Nat) : Option ℚ :=
  if i = 0 then none
  else omSub ((c.get? i).getD none) ((c.get? (i - 1)).getD none)

/-- `Series.diff()`. -/
def diffList (c : List (Option ℚ)) : List (Option ℚ) :=
  (List.range c.length).map (diffIdx c)

/-- The trailing window of `w` observations ending at index `i`
(`rows [i-w+1, i]`), defined only when the index admits a full window
and every observation in it is a number (`rolling(w)` has
`min_periods = w`, counting non-NaN observations). -/
def windowAt (c : List (Option ℚ)) (w i : Nat) : Option (List ℚ) :=
  if i + 1 < w then none
  else
    let vals := (List.range w).map (fun k => (c.get? (i + 1 - w + k)).getD none)
    if vals.all Option.isSome then some (vals.filterMap id) else none

/-- `Series.rolling(w).mean()` at index `i`. -/
def rollingMeanAt (c : List (Option ℚ)) (w i : Nat) : Option ℚ :=
  (windowAt c w i).map (fun l => l.sum / (w : ℚ))

/-- `Series.rolling(w).std()` at index `i`: square root of the sample
variance (`ddof = 1`) of the trailing window.  The square root is the
explicit parameter `sq`. -/
def rollingStdAt (sq : ℚ → ℚ) (c : List (Option ℚ)) (w i : Nat) : Option ℚ :=
  (windowAt c w i).map
    (fun l =>
      let m := l.sum / (w : ℚ)
      sq ((l.map (fun x => (x - m) ^ 2)).sum / ((w : ℚ) - 1)))

/-- Numerical stabiliser `1e-6` added to the rolling std. -/
def eps : ℚ := 1 / 1000000

/-- The oscillator `(c[i] - mean_w[i]) / (std_w[i] + 1e-6)`:
not-a-number when any operand is. -/
def oscAt (sq : ℚ → ℚ) (c : List (Option ℚ)) (w i : Nat) : Option ℚ :=
  match (c.get? i).getD none, rollingMeanAt c w i, rollingStdAt sq c w i with
  | some x, some m, some s => some ((x - m) / (s + eps))
  | _, _, _ => none

/-- `add_delta_and_oscillator(df, col, window)` (app.py lines 51-57):
if `col` is absent, return `df` unchanged; else coerce the column to
numeric, add `delta_<col> = df[col].diff()` and `oscillator_<col> =
(df[col] - rolling mean) / (rolling std + 1e-6)`. -/
def add_delta_and_oscillator (sq : ℚ → ℚ) (df : Frame) (col : String)
    (window : Nat) : Frame :=
  match getCol df col with
  | none => df
  | some cells =>
      let c := cells.map toNumeric
      let df1 := setCol df col (c.map optVal)
      let df2 := setCol df1 ("delta_" ++ col) ((diffList c).map optVal)
      setCol df2 ("oscillator_" ++ col)
        (((List.range c.length).map (oscAt sq c window)).map optVal)

/-- The elementwise comparison `value < -2` as pandas evaluates it:
numbers compare numerically, the not-a-number marker compares `false`,
Python booleans are the numbers 0/1 (never `< -2`), and comparing a
string or datetime with an integer raises `TypeError`. -/
def ltNegTwo : Value → Except String Bool
  | Value.num q => Except.ok (decide (q < -2))
  | Value.nan => Except.ok false
  | Value.bool _ => Except.ok false
  | Value.time _ => Except.error "TypeError: cannot compare datetime and int"
  | Value.str _ => Except.error "TypeError: cannot compare str and int"

/-- Elementwise fallible map, stopping at the first raised error. -/
def mapExcept (f : α → Except ε β) : List α → Except ε (List β)
  | [] => Except.ok []
  | a :: as =>
      match f a with
      | Except.error e => Except.error e
      | Except.ok b =>
          match mapExcept f as with
          | Except.error e => Except.error e
          | Except.ok bs => Except.ok (b :: bs)

/-- `engineer_features(df)` (app.py lines 59-65): run
`add_delta_and_oscillator` for every target column (the configured
list is `['avg_bat_speed']`); if an `oscillator_avg_bat_speed` column
exists, set `cashout_signal = oscillator_avg_bat_speed < -2`; finally
set `pick_tracked = True` for every row. -/
def engineer_features (sq : ℚ → ℚ) (df : Frame) : Except String Frame :=
  let df1 := add_delta_and_oscillator sq df "avg_bat_speed" 5
  match getCol df1 "oscillator_avg_bat_speed" with
  | some osc =>
      match mapExcept ltNegTwo osc with
      | Except.error e => Except.error e
      | Except.ok bs =>
          let df2 := setCol df1 "cashout_signal" (bs.map Value.bool)
          Except.ok
            (setCol df2 "pick_tracked"
              (List.replicate (nRows df2) (Value.bool true)))
  | none =>
      Except.ok
        (setCol df1 "pick_tracked"
          (List.replicate (nRows df1) (Value.bool true)))

/-- A frame whose oscillator column is supplied directly by the upload:
one row below the threshold, one not-a-number row. -/
def dfC1 : Frame := [("oscillator_avg_bat_speed", [Value.num (-3), Value.nan])]

/-- The frame `engineer_features` produces from `dfC1`. -/
def outC1 : Frame :=
  [("oscillator_avg_bat_speed", [Value.num (-3), Value.nan]),
   ("cashout_signal", [Value.bool true, Value.bool false]),
   ("pick_tracked", [Value.bool true, Value.bool true])]

/-- A concrete two-row frame with the target column present. -/
def dfC2 : Frame := [("avg_bat_speed", [Value.num 1, Value.num 2])]

-- The Record Mapper (app.py lines 161-180 uses the schema of lines 22-48).

/-- One table row, as `df.iterrows()` yields it: column name to cell. -/
abbrev Row : Type := List (String × Value)

/-- The field names of the persisted `Omniscience` schema
(`Omniscience.__table__.columns.keys()`), in declaration order
(app.py lines 23-45). -/
def schemaFields : List String :=
  ["id", "name", "swings_competitive", "percent_swings_competitive",
   "contact", "avg_bat_speed", "hard_swing_rate",
   "squared_up_per_bat_contact", "squared_up_per_swing",
   "blast_per_bat_contact", "blast_per_swing", "swing_length", "swords",
   "batter_run_value", "whiffs", "whiff_per_swing", "batted_ball_events",
   "batted_ball_event_per_swing", "timestamp", "delta_bat_speed",
   "oscillator_bat_speed", "cashout_signal", "pick_tracked"]

/-- `row.get(k)` / `k in row`. -/
def lookupVal : Row → String → Option Value
  | [], _ => none
  | p :: l, k => if p.1 = k then some p.2 else lookupVal l k

/-- `dict[k] = v`: overwrite in place, else append. -/
def setKey : Row → String → Value → Row
  | [], k, v => [(k, v)]
  | p :: l, k, v => if p.1 = k then (k, v) :: l else p :: setKey l k v

/-- Row `i` of a frame. -/
def rowAt (df : Frame) (i : Nat) : Row :=
  df.map (fun p => (p.1, p.2.getD i Value.nan))

/-- One entry of the Record Mapper's dict comprehension: keep schema
key `c` exactly when the row has it and its value is not the
not-a-number marker. -/
def projEntry (row : Row) (c : String) : Option (String × Value) :=
  match lookupVal row c with
  | some v => if isNA v then none else some (c, v)
  | none => none

/-- `{col: row.get(col) for col in schema if col in row and not
pd.isna(row[col])}` (app.py line 167). -/
def projectRow (row : Row) : Row :=
  schemaFields.filterMap (projEntry row)

/-- The candidate record: the schema projection with
`data['timestamp'] = datetime.utcnow()` applied (app.py line 168). -/
def recordData (row : Row) (now : Nat) : Row :=
  setKey (projectRow row) "timestamp" (Value.time now)

/-- A concrete row with an off-schema key, a NaN schema key, and a
row-supplied value for a schema key. -/
def rowC3 : Row :=
  [("name", Value.str "x"), ("extra_col", Value.num 7),
   ("avg_bat_speed", Value.nan), ("timestamp", Value.str "2020-01-01")]

-- `process_csv` (app.py lines 161-180).

/-- Python truthiness, `bool(value)`: zero numbers and empty strings
are falsy; note `bool(float('nan'))` is `True`. -/
def pyTruthy : Value → Bool
  | Value.num q => decide (q ≠ 0)
  | Value.str s => decide (s ≠ "")
  | Value.bool b => b
  | Value.time _ => true
  | Value.nan => true

/-- The per-row summary emitted by `process_csv` (app.py lines
171-177): fields `id`, `name`, `avg_bat_speed`, `cashout_signal`,
`oscillator_bat_speed`. -/
structure RowSummary where
  id : Value
  name : Value
  avg_bat_speed : Option Value
  cashout_signal : Bool
  oscillator_bat_speed : Option Value
deriving DecidableEq, Repr

/-- One summary entry: `id`/`name` fall back to the string "unknown",
`cashout_signal` is the Python truthiness of the cell (absent cell
defaults to false), and the reported `oscillator_bat_speed` reads the
`oscillator_avg_bat_speed` derived column. -/
def mkSummary (row : Row) : RowSummary :=
  ⟨(lookupVal row "id").getD (Value.str "unknown"),
   (lookupVal row "name").getD (Value.str "unknown"),
   lookupVal row "avg_bat_speed",
   pyTruthy ((lookupVal row "cashout_signal").getD (Value.bool false)),
   lookupVal row "oscillator_avg_bat_speed"⟩

/-- `process_csv(file_obj, filename)` (app.py lines 161-180): parse
the stream (`pd.read_csv`, whose outcome the stream model carries),
enrich it with `engineer_features`, then for every row stage a Record
for the session (`db.session.add`) and emit a summary; any exception
is re-raised as `Error processing <filename>: <message>`.  Returns
the summaries and the staged records. -/
def process_csv (sq : ℚ → ℚ) (now : Nat) (parsed : Except String Frame)
    (filename : String) : Except String (List RowSummary × List Row) :=
  match parsed with
  | Except.error e =>
      Except.error ("Error processing " ++ filename ++ ": " ++ e)
  | Except.ok df =>
      match engineer_features sq df with
      | Except.error e =>
          Except.error ("Error processing " ++ filename ++ ": " ++ e)
      | Except.ok out =>
          let rows := (List.range (nRows out)).map (rowAt out)
          Except.ok (rows.map mkSummary, rows.map (fun r => recordData r now))

/-- A parsed frame whose upload directly supplies a `delta_bat_speed`
column (a schema field) next to the target column. -/
def dfC9 : Frame :=
  [("delta_bat_speed", [Value.num 1]), ("avg_bat_speed", [Value.num 2])]

/-- A parsed frame supplying neither `delta_bat_speed` nor
`oscillator_bat_speed`. -/
def dfC9w : Frame := [("avg_bat_speed", [Value.num 3])]

/-- The summaries and records `process_csv` stages from `dfC9w`. -/
def recC9w : Row :=
  [("avg_bat_speed", Value.num 3), ("cashout_signal", Value.bool false),
   ("pick_tracked", Value.bool true), ("timestamp", Value.time 0)]

-- The Corruption Detector (app.py lines 68-103).

instance : Repr Frame := by
  unfold Frame; infer_instance

instance {ε α : Type} [DecidableEq ε] [DecidableEq α] :
    DecidableEq (Except ε α) := fun x y =>
  match x, y with
  | Except.error a, Except.error b =>
      if h : a = b then Decidable.isTrue (by rw [h])
      else Decidable.isFalse (fun hc => h (Except.error.inj hc))
  | Except.ok a, Except.ok b =>
      if h : a = b then Decidable.isTrue (by rw [h])
      else Decidable.isFalse (fun hc => h (Except.ok.inj hc))
  | Except.error _, Except.ok _ => Decidable.isFalse (fun hc => by cases hc)
  | Except.ok _, Except.error _ => Decidable.isFalse (fun hc => by cases hc)

/-- The observations the CSV corruption check makes of a byte stream:
the records `csv.reader` yields over it (a blank line yields the empty
record `[]`), or the exception message if reading/decoding raises. -/
structure CsvContent where
  records : List (List String)
  readErr : Option String
deriving DecidableEq, Repr

/-- A CSV byte stream together with its read cursor. -/
structure CsvStream where
  content : CsvContent
  pos : Nat
deriving DecidableEq, Repr

/-- The corruption decision of `is_csv_corrupted`, which inspects only
the header record and the first data record: "Empty or missing data"
when either is missing or falsy (a blank line reads as the empty
record, which is falsy in Python), the two column counts when they
differ, clean otherwise. -/
def csvCheck (c : CsvContent) : Bool × Option String :=
  match c.records.get? 0, c.records.get? 1 with
  | some header, some first_row =>
      if header.isEmpty || first_row.isEmpty then
        (true, some "Empty or missing data")
      else if header.length ≠ first_row.length then
        (true, some ("Header has " ++ Nat.repr header.length ++
          " columns, row has " ++ Nat.repr first_row.length))
      else (false, none)
  | _, _ => (true, some "Empty or missing data")

/-- `is_csv_corrupted(file_obj)` (app.py lines 68-82): remember the
cursor (`pos = tell()`), read the header record and exactly one data
record, then `seek(pos)` — so on every non-exception outcome the
cursor is back at its entry position — and return the decision of
`csvCheck`.  If reading raises, the handler runs `seek(0)` and reports
the exception message. -/
def is_csv_corrupted (s : CsvStream) : (Bool × Option String) × CsvStream :=
  match s.content.readErr with
  | some e => ((true, some e), ⟨s.content, 0⟩)
  | none => (csvCheck s.content, s)

/-- One entry of a ZIP archive, described by the observations the code
makes of it: its name, whether `zipf.getinfo` raises on it, the
exception message raised by opening/reading it (if any), its bytes
viewed as CSV records for the corruption check, and the outcome of
`pd.read_csv` on those bytes. -/
structure ZipEntry where
  filename : String
  infoErr : Bool
  openErr : Option String
  content : CsvContent
  parsed : Except String Frame
deriving DecidableEq, Repr

/-- A byte stream viewed as a ZIP archive: either `zipfile.ZipFile`
raises `BadZipFile` with a message, or it opens to a list of entries.
`endPos` is where archive inspection leaves the read cursor (the
archive directory lives at the end of the file). -/
structure ZipView where
  archive : Except String (List ZipEntry)
  endPos : Nat
deriving DecidableEq, Repr

/-- A ZIP byte stream together with its read cursor. -/
structure ZipStream where
  view : ZipView
  pos : Nat
deriving DecidableEq, Repr

/-- The first entry whose metadata cannot be read, if any. -/
def firstBadInfo : List ZipEntry → Option String
  | [] => none
  | e :: es => if e.infoErr then some e.filename else firstBadInfo es

/-- The corruption decision of `is_zip_corrupted` on an archive that
opened: "ZIP is empty" for an empty name list, "Cannot read file info
for <name>" if some entry's metadata cannot be read, clean
otherwise. -/
def zipCheck (entries : List ZipEntry) : Bool × Option String :=
  if entries.isEmpty then (true, some "ZIP is empty")
  else
    match firstBadInfo entries with
    | some name => (true, some ("Cannot read file info for " ++ name))
    | none => (false, none)

/-- `is_zip_corrupted(file_obj)` (app.py lines 84-103): remember the
cursor, open the archive; the corrupted outcomes ("ZIP is empty",
"Cannot read file info") return from inside the `with` block *before*
the `seek(pos)` line, leaving the cursor wherever archive inspection
put it (`endPos`); the clean outcome runs `seek(pos)`.  On
`BadZipFile` (or any other exception) the handler runs `seek(0)`. -/
def is_zip_corrupted (s : ZipStream) : (Bool × Option String) × ZipStream :=
  match s.view.archive with
  | Except.error e => ((true, some ("Bad ZIP file: " ++ e)), ⟨s.view, 0⟩)
  | Except.ok entries =>
      let res := zipCheck entries
      if res.1 then (res, ⟨s.view, s.view.endPos⟩)
      else (res, ⟨s.view, s.pos⟩)

-- The Batch Ingestor (app.py lines 106-159) and werkzeug's sanitizer.

/-- Characters werkzeug's sanitizer keeps: ASCII letters, digits,
underscore, dot, hyphen. -/
def allowedChar (c : Char) : Bool :=
  c.isAlpha || c.isDigit || c = '_' || c = '.' || c = '-'

/-- `str.split()` with no separator: split on runs of whitespace,
dropping empty pieces (`acc` holds the current piece reversed). -/
def splitWs : List Char → List Char → List (List Char)
  | [], acc => if acc.isEmpty then [] else [acc.reverse]
  | c :: rest, acc =>
      if c.isWhitespace then
        if acc.isEmpty then splitWs rest []
        else acc.reverse :: splitWs rest []
      else splitWs rest (c :: acc)

/-- `"_".join(pieces)`. -/
def joinUnderscore : List (List Char) → List Char
  | [] => []
  | [w] => w
  | w :: ws => w ++ '_' :: joinUnderscore ws

/-- `str.strip("._")`. -/
def stripDotUnderscore (cs : List Char) : List Char :=
  ((cs.dropWhile (fun c => c = '.' || c = '_')).reverse.dropWhile
    (fun c => c = '.' || c = '_')).reverse

/-- Modelled after `werkzeug.utils.secure_filename` for ASCII names:
non-ASCII characters are dropped, path separators become spaces,
whitespace runs become a single underscore, characters outside
`[A-Za-z0-9_.-]` are removed, and leading/trailing dots and
underscores are stripped.  (Unicode NFKD normalisation and the
Windows device-name check are not modelled; no claim depends on
them.)  Letter case is preserved. -/
def secure_filename (s : String) : String :=
  let ascii := s.data.filter (fun c => c.toNat < 128)
  let repl := ascii.map (fun c => if c = '/' then ' ' else c)
  let joined := joinUnderscore (splitWs repl [])
  String.mk (stripDotUnderscore (joined.filter allowedChar))

/-- Python's `str.endswith(suffix)` — an exact, case-sensitive suffix
test. -/
def strEndsWith (s suffix : String) : Bool :=
  suffix.data.isSuffixOf s.data

/-- An uploaded file as the Batch Ingestor observes it: the original
(pre-sanitization) name, the same bytes opened as a ZIP archive, read
as CSV records, and parsed by `pd.read_csv`.  One byte string
determines all three views; the model carries each observation
explicitly. -/
structure FileStorage where
  filename : String
  zipView : ZipView
  content : CsvContent
  parsed : Except String Frame
deriving DecidableEq, Repr

/-- The accumulating state of one ingestion call: the alert list, the
row-summary list, and the records staged in the session
(`db.session.add`) awaiting the final commit. -/
structure BatchState where
  alerts : List String
  results : List RowSummary
  pending : List Row
deriving DecidableEq, Repr

/-- Processing of one ZIP entry (app.py lines 127-138): entries whose
names do not end in `.csv` (case-sensitively) are skipped silently; an
exception while opening or handling the entry becomes an
`Error processing` alert; a corrupt entry becomes a
`Corrupted CSV in ZIP` alert; otherwise the entry is parsed, enriched
and mapped, extending the results and the staged records.  A
`process_csv` failure message (already of the form
`Error processing <name>: ...`) is wrapped a second time by this
per-entry handler. -/
def processZipEntry (sq : ℚ → ℚ) (now : Nat) (st : BatchState)
    (e : ZipEntry) : BatchState :=
  if strEndsWith e.filename ".csv" then
    match e.openErr with
    | some msg =>
        ⟨st.alerts ++ ["Error processing " ++ e.filename ++ ": " ++ msg],
         st.results, st.pending⟩
    | none =>
        match (is_csv_corrupted ⟨e.content, 0⟩).1 with
        | (true, reason) =>
            ⟨st.alerts ++ ["Corrupted CSV in ZIP: " ++ e.filename ++ " - " ++
              reason.getD ""], st.results, st.pending⟩
        | (false, _) =>
            match process_csv sq now e.parsed e.filename with
            | Except.ok (sums, recs) =>
                ⟨st.alerts, st.results ++ sums, st.pending ++ recs⟩
            | Except.error msg =>
                ⟨st.alerts ++ ["Error processing " ++ e.filename ++ ": " ++
                  msg], st.results, st.pending⟩
  else st

/-- Processing of one uploaded file: the body of the
`for file_storage in files` loop (app.py lines 114-149).  Files with
an empty original name are skipped; the sanitized name dispatches on
its exact lowercase suffix; ZIP-dispatched work recovers every
per-entry failure locally; but a top-level CSV whose `process_csv`
raises propagates the exception out of the loop (`Except.error`) —
there is no per-file handler around line 147. -/
def processOneFile (sq : ℚ → ℚ) (now : Nat) (st : BatchState)
    (fs : FileStorage) : Except String BatchState :=
  if fs.filename = "" then Except.ok st
  else
    let filename := secure_filename fs.filename
    if strEndsWith filename ".zip" then
      match (is_zip_corrupted ⟨fs.zipView, 0⟩).1 with
      | (true, reason) =>
          Except.ok ⟨st.alerts ++ ["Corrupted ZIP: " ++ filename ++ " - " ++
            reason.getD ""], st.results, st.pending⟩
      | (false, _) =>
          match fs.zipView.archive with
          | Except.error e =>
              Except.ok ⟨st.alerts ++ ["Error processing ZIP " ++ filename ++
                ": " ++ e], st.results, st.pending⟩
          | Except.ok entries =>
              Except.ok (entries.foldl (processZipEntry sq now) st)
    else if strEndsWith filename ".csv" then
      match (is_csv_corrupted ⟨fs.content, 0⟩).1 with
      | (true, reason) =>
          Except.ok ⟨st.alerts ++ ["Corrupted CSV: " ++ filename ++ " - " ++
            reason.getD ""], st.results, st.pending⟩
      | (false, _) =>
          match process_csv sq now fs.parsed filename with
          | Except.ok (sums, recs) =>
              Except.ok ⟨st.alerts, st.results ++ sums, st.pending ++ recs⟩
          | Except.error msg => Except.error msg
    else
      Except.ok ⟨st.alerts ++ ["Unsupported file type: " ++ filename],
        st.results, st.pending⟩

/-- Left fold that stops at the first raised exception. -/
def foldlE (f : β → α → Except ε β) : β → List α → Except ε β
  | b, [] => Except.ok b
  | b, a :: as =>
      match f b a with
      | Except.error e => Except.error e
      | Except.ok b2 => foldlE f b2 as

/-- The persistence layer as the batch observes it: previously
committed records and the number of commits issued. -/
structure DB where
  committed : List Row
  commits : Nat
deriving DecidableEq, Repr

/-- The three response shapes of `/upload_stats`: the success JSON
(status, alerts, results, files_processed), the HTTP 500 server error
(a single message — no alerts, no results), and the HTTP 400
missing-input error. -/
inductive UploadResponse where
  | success (status : String) (alerts : List String)
      (results : List RowSummary) (files_processed : Nat)
  | serverError (msg : String)
  | badRequest (msg : String)
deriving DecidableEq, Repr

/-- `upload_stats()` (app.py lines 106-159): reject a request without
files; process every file in order, accumulating alerts, summaries
and staged records; then commit once.  `commitErr` is the exception
the final `db.session.commit()` raises, if any.  An exception escaping
the loop or the commit is caught by the single handler, which rolls
the session back — every staged record is discarded, leaving the
store unchanged — and returns a server error.  On success,
`files_processed` is `len(results)`. -/
def upload_stats (sq : ℚ → ℚ) (now : Nat)
    (files : Option (List FileStorage)) (commitErr : Option String)
    (db : DB) : UploadResponse × DB :=
  match files with
  | none => (UploadResponse.badRequest "No files provided", db)
  | some fs =>
      match foldlE (processOneFile sq now) ⟨[], [], []⟩ fs with
      | Except.error e =>
          (UploadResponse.serverError ("Server error: " ++ e), db)
      | Except.ok st =>
          match commitErr with
          | some e =>
              (UploadResponse.serverError ("Server error: " ++ e), db)
          | none =>
              (UploadResponse.success "INGESTION COMPLETE" st.alerts
                st.results st.results.length,
               ⟨db.committed ++ st.pending, db.commits + 1⟩)

/-- A well-formed single CSV upload whose table has two rows. -/
def fileC6 : FileStorage :=
  ⟨"a.csv", ⟨Except.error "File is not a zip file", 0⟩,
   ⟨[["name"], ["a"], ["b"]], none⟩,
   Except.ok [("name", [Value.str "a", Value.str "b"])]⟩

/-- A top-level CSV upload that passes the shallow corruption check
(header and first row both have 2 fields) but whose `pd.read_csv`
raises on the ragged third line. -/
def fileC4 : FileStorage :=
  ⟨"bad.csv", ⟨Except.error "File is not a zip file", 0⟩,
   ⟨[["a", "b"], ["1", "2"], ["1", "2", "3"]], none⟩,
   Except.error
     "Error tokenizing data. C error: Expected 2 fields in line 3, saw 3"⟩

/-- A plain-text upload, dispatched to neither the ZIP nor the CSV
branch. -/
def fileTxt : FileStorage :=
  ⟨"notes.txt", ⟨Except.error "File is not a zip file", 0⟩, ⟨[], none⟩,
   Except.error "ParserError"⟩

/-- An upload named with the uppercase extension `.CSV`. -/
def fileUpperCsv : FileStorage :=
  ⟨"data.CSV", ⟨Except.error "File is not a zip file", 0⟩,
   ⟨[["a"], ["1"]], none⟩, Except.ok [("a", [Value.num 1])]⟩

-- Basic lemmas about column lookup and assignment.

/-- Reading back the column just assigned. -/
theorem getCol_setCol_same (df : Frame) (n : String) (cells : List Value) :
    getCol (setCol df n cells) n = some cells := by
  induction df with
  | nil => simp [setCol, getCol]
  | cons p df ih =>
      by_cases h : p.1 = n
      · simp [setCol, h, getCol]
      · simp [setCol, h, getCol, ih]

/-- Assignment to one column leaves every other column unchanged. -/
theorem getCol_setCol_ne (df : Frame) (n m : String) (cells : List Value)
    (h : m ≠ n) : getCol (setCol df n cells) m = getCol df m := by
  have hnm : ¬n = m := fun hc => h hc.symm
  induction df with
  | nil => simp [setCol, getCol, hnm]
  | cons p df ih =>
      by_cases hp : p.1 = n
      · have hpm : ¬p.1 = m := by rw [hp]; exact hnm
        simp [setCol, hp, getCol, hnm, hpm]
      · simp [setCol, hp, getCol, ih]

/-- Two strings of different lengths are different. -/
theorem str_ne_of_length_ne {s t : String} (h : s.length ≠ t.length) :
    s ≠ t := fun hc => h (hc ▸ rfl)

theorem length_append_str (s t : String) :
    (s ++ t).length = s.length + t.length := by
  simp [String.length_append]

/-- If the prefix has positive length, appending it changes the string. -/
theorem ne_prefix_append (s col : String) (h : s.length ≠ 0) :
    col ≠ s ++ col := by
  apply str_ne_of_length_ne
  rw [length_append_str]
  omega

/-- Appending the same suffix to prefixes of different lengths gives
different strings. -/
theorem append_ne_append_of_length_ne {s t : String} (u : String)
    (h : s.length ≠ t.length) : s ++ u ≠ t ++ u := by
  apply str_ne_of_length_ne
  rw [length_append_str, length_append_str]
  omega

/-- A successful elementwise fallible map succeeds pointwise. -/
theorem mapExcept_ok_spec {α β ε : Type} {f : α → Except ε β} :
    ∀ (l : List α) (bs : List β), mapExcept f l = Except.ok bs →
      bs.length = l.length ∧
      ∀ i a, l.get? i = some a →
        ∃ b, bs.get? i = some b ∧ f a = Except.ok b := by
  intro l
  induction l with
  | nil =>
      intro bs h
      simp only [mapExcept] at h
      injection h with h
      subst h
      exact ⟨rfl, by intro i a ha; simp at ha⟩
  | cons a as ih =>
      intro bs h
      simp only [mapExcept] at h
      cases hfa : f a with
      | error e => rw [hfa] at h; exact absurd h (by simp)
      | ok b =>
          rw [hfa] at h
          cases hrec : mapExcept f as with
          | error e => rw [hrec] at h; exact absurd h (by simp)
          | ok bs' =>
              rw [hrec] at h
              injection h with h
              subst h
              obtain ⟨hlen, hidx⟩ := ih bs' hrec
              refine ⟨by simp [hlen], ?_⟩
              intro i x hx
              cases i with
              | zero =>
                  simp only [List.get?_cons_zero] at hx
                  injection hx with hx
                  subst hx
                  exact ⟨b, rfl, hfa⟩
              | succ i =>
                  simp only [List.get?_cons_succ] at hx ⊢
                  exact hidx i x hx

/-- What a successful `< -2` comparison says about the compared cell. -/
theorem ltNegTwo_ok_spec {v : Value} {b : Bool}
    (h : ltNegTwo v = Except.ok b) :
    (b = true ↔ ∃ q, v = Value.num q ∧ q < -2) ∧
    (v = Value.nan → b = false) := by
  cases v with
  | num q =>
      simp only [ltNegTwo] at h
      injection h with h
      subst h
      constructor
      · simp [decide_eq_true_iff]
      · intro hv; exact absurd hv (by simp)
  | str s => exact absurd h (by simp [ltNegTwo])
  | bool c =>
      simp only [ltNegTwo] at h
      injection h with h
      subst h
      exact ⟨by simp, fun _ => rfl⟩
  | time t => exact absurd h (by simp [ltNegTwo])
  | nan =>
      simp only [ltNegTwo] at h
      injection h with h
      subst h
      exact ⟨by simp, fun _ => rfl⟩

/-- C1: in the Feature Engine (`engineer_features`), whenever the
enriched table has an `oscillator_avg_bat_speed` column, every
`cashout_signal[i]` is a boolean, true iff `oscillator_avg_bat_speed[i]`
is a number strictly below `-2.0`, and false (not an error, not a
not-a-number marker) when that oscillator value is not-a-number. -/
theorem c1_cashout_signal :
    ∀ (sq : ℚ → ℚ) (df out : Frame) (osc cash : List Value),
      engineer_features sq df = Except.ok out →
      getCol out "oscillator_avg_bat_speed" = some osc →
      getCol out "cashout_signal" = some cash →
      cash.length = osc.length ∧
      ∀ i v, osc.get? i = some v →
        ∃ b, cash.get? i = some (Value.bool b) ∧
          (b = true ↔ ∃ q, v = Value.num q ∧ q < -2) ∧
          (v = Value.nan → b = false) := by
  intro sq df out osc cash heng hosc hcash
  have hne1 : ("oscillator_avg_bat_speed" : String) ≠ "pick_tracked" := by decide
  have hne2 : ("oscillator_avg_bat_speed" : String) ≠ "cashout_signal" := by
    decide
  have hne3 : ("cashout_signal" : String) ≠ "pick_tracked" := by decide
  simp only [engineer_features] at heng
  split at heng
  case _ osc0 hg =>
      split at heng
      case _ e hm => exact absurd heng (by simp)
      case _ bs hm =>
          injection heng with heng
          subst heng
          rw [getCol_setCol_ne _ _ _ _ hne1, getCol_setCol_ne _ _ _ _ hne2,
            hg] at hosc
          injection hosc with hosc
          subst hosc
          rw [getCol_setCol_ne _ _ _ _ hne3, getCol_setCol_same] at hcash
          injection hcash with hcash
          subst hcash
          obtain ⟨hlen, hidx⟩ := mapExcept_ok_spec osc0 bs hm
          refine ⟨by simp [hlen], ?_⟩
          intro i v hv
          obtain ⟨b, hb, hfb⟩ := hidx i v hv
          refine ⟨b, ?_, ltNegTwo_ok_spec hfb⟩
          rw [List.get?_map, hb]
          rfl
  case _ hg =>
      injection heng with heng
      subst heng
      rw [getCol_setCol_ne _ _ _ _ hne1, hg] at hosc
      exact absurd hosc (by simp)

/-- Witness for C1: the theorem applied to the concrete frame `dfC1`. -/
theorem c1_witness :
    ([Value.bool true, Value.bool false] : List Value).length =
        ([Value.num (-3), Value.nan] : List Value).length ∧
      ∀ i v, ([Value.num (-3), Value.nan] : List Value).get? i = some v →
        ∃ b, ([Value.bool true, Value.bool false] : List Value).get? i =
            some (Value.bool b) ∧
          (b = true ↔ ∃ q, v = Value.num q ∧ q < -2) ∧
          (v = Value.nan → b = false) :=
  c1_cashout_signal (fun q => q) dfC1 outC1
    [Value.num (-3), Value.nan] [Value.bool true, Value.bool false]
    rfl rfl rfl

/-- Below a full trailing window the oscillator is not-a-number. -/
theorem oscAt_eq_none_of_lt (sq : ℚ → ℚ) (c : List (Option ℚ)) (i : Nat)
    (h : i + 1 < 5) : oscAt sq c 5 i = none := by
  have hm : rollingMeanAt c 5 i = none := by
    simp [rollingMeanAt, windowAt, h]
  unfold oscAt
  rw [hm]
  split <;> simp_all

/-- C2: for every target column `col` present in the table,
`add_delta_and_oscillator` (with the Feature Engine's window `W = 5`)
computes `delta_col[i] = col[i] - col[i-1]` on the numerically coerced
column with `delta_col[0]` not-a-number, and the trailing window of 5
rows (inclusive of the current row) makes `oscillator_col[i]`
not-a-number for every row index `i < 4` — hence for every row of a
table with fewer than 5 rows. -/
theorem c2_delta_oscillator :
    ∀ (sq : ℚ → ℚ) (df : Frame) (col : String) (cells : List Value),
      getCol df col = some cells →
      ∃ dcol ocol,
        getCol (add_delta_and_oscillator sq df col 5) ("delta_" ++ col) =
            some dcol ∧
        getCol (add_delta_and_oscillator sq df col 5) ("oscillator_" ++ col) =
            some ocol ∧
        dcol.length = cells.length ∧ ocol.length = cells.length ∧
        (0 < cells.length → dcol.get? 0 = some Value.nan) ∧
        (∀ i a b, 0 < i → cells.get? i = some a → cells.get? (i - 1) = some b →
          dcol.get? i = some (optVal (omSub (toNumeric a) (toNumeric b)))) ∧
        (∀ i, i < 4 → i < cells.length → ocol.get? i = some Value.nan) ∧
        (cells.length < 5 → ∀ i, i < cells.length →
          ocol.get? i = some Value.nan) := by
  intro sq df col cells hcol
  have hlen6 : ("delta_" : String).length = 6 := rfl
  have hlen11 : ("oscillator_" : String).length = 11 := rfl
  have hne : ("delta_" ++ col) ≠ ("oscillator_" ++ col) :=
    append_ne_append_of_length_ne col (by rw [hlen6, hlen11]; omega)
  simp only [add_delta_and_oscillator, hcol]
  set c := cells.map toNumeric with hc
  refine ⟨(diffList c).map optVal,
    ((List.range c.length).map (oscAt sq c 5)).map optVal,
    ?_, getCol_setCol_same _ _ _, ?_, ?_, ?_, ?_, ?_, ?_⟩
  · rw [getCol_setCol_ne _ _ _ _ hne, getCol_setCol_same]
  · simp [diffList, hc]
  · simp [hc]
  · intro hpos
    have hclen : 0 < c.length := by simp [hc]; omega
    rw [List.get?_map, diffList, List.get?_map, List.get?_range hclen]
    simp [diffIdx, optVal]
  · intro i a b hi ha hb
    obtain ⟨hlt, -⟩ := List.get?_eq_some.mp ha
    have hilen : i < c.length := by rw [hc, List.length_map]; exact hlt
    rw [List.get?_map, diffList, List.get?_map, List.get?_range hilen]
    have h1 : c.get? i = some (toNumeric a) := by
      rw [hc, List.get?_map, ha]; rfl
    have h2 : c.get? (i - 1) = some (toNumeric b) := by
      rw [hc, List.get?_map, hb]; rfl
    simp [diffIdx, Nat.pos_iff_ne_zero.mp hi, ← List.get?_eq_getElem?, h1, h2]
  · intro i h4 hlt
    have hilen : i < c.length := by rw [hc, List.length_map]; exact hlt
    rw [List.get?_map, List.get?_map, List.get?_range hilen]
    simp [oscAt_eq_none_of_lt sq c i (by omega), optVal]
  · intro h5 i hlt
    have hilen : i < c.length := by rw [hc, List.length_map]; exact hlt
    rw [List.get?_map, List.get?_map, List.get?_range hilen]
    simp [oscAt_eq_none_of_lt sq c i (by omega), optVal]

/-- Witness for C2: the theorem applied to the concrete frame `dfC2`. -/
theorem c2_witness :
    ∃ dcol ocol,
      getCol (add_delta_and_oscillator (fun q => q) dfC2 "avg_bat_speed" 5)
          ("delta_" ++ "avg_bat_speed") = some dcol ∧
      getCol (add_delta_and_oscillator (fun q => q) dfC2 "avg_bat_speed" 5)
          ("oscillator_" ++ "avg_bat_speed") = some ocol ∧
      dcol.length = ([Value.num 1, Value.num 2] : List Value).length ∧
      ocol.length = ([Value.num 1, Value.num 2] : List Value).length ∧
      (0 < ([Value.num 1, Value.num 2] : List Value).length →
        dcol.get? 0 = some Value.nan) ∧
      (∀ i a b, 0 < i →
        ([Value.num 1, Value.num 2] : List Value).get? i = some a →
        ([Value.num 1, Value.num 2] : List Value).get? (i - 1) = some b →
        dcol.get? i = some (optVal (omSub (toNumeric a) (toNumeric b)))) ∧
      (∀ i, i < 4 → i < ([Value.num 1, Value.num 2] : List Value).length →
        ocol.get? i = some Value.nan) ∧
      (([Value.num 1, Value.num 2] : List Value).length < 5 →
        ∀ i, i < ([Value.num 1, Value.num 2] : List Value).length →
          ocol.get? i = some Value.nan) :=
  c2_delta_oscillator (fun q => q) dfC2 "avg_bat_speed"
    [Value.num 1, Value.num 2] rfl

theorem lookupVal_setKey_same (l : Row) (k : String) (v : Value) :
    lookupVal (setKey l k v) k = some v := by
  induction l with
  | nil => simp [setKey, lookupVal]
  | cons p l ih =>
      by_cases h : p.1 = k
      · simp [setKey, h, lookupVal]
      · simp [setKey, h, lookupVal, ih]

theorem mem_keys_setKey (l : Row) (k m : String) (v : Value) :
    m ∈ (setKey l k v).map Prod.fst ↔ m ∈ l.map Prod.fst ∨ m = k := by
  induction l with
  | nil => simp [setKey]
  | cons p l ih =>
      by_cases h : p.1 = k
      · subst h
        simp [setKey]
        tauto
      · simp [setKey, h, ih]
        tauto

theorem lookupVal_eq_none_of_not_mem (l : Row) (k : String)
    (h : k ∉ l.map Prod.fst) : lookupVal l k = none := by
  induction l with
  | nil => rfl
  | cons p l ih =>
      simp only [List.map_cons, List.mem_cons, not_or] at h
      simp only [lookupVal]
      rw [if_neg (fun hc => h.1 hc.symm)]
      exact ih h.2

/-- Keys of the dict comprehension over an arbitrary schema list. -/
theorem mem_keys_projectList (row : Row) (l : List String) (k : String) :
    k ∈ (l.filterMap (projEntry row)).map Prod.fst ↔
      k ∈ l ∧ ∃ v, lookupVal row k = some v ∧ isNA v = false := by
  induction l with
  | nil => simp
  | cons c l ih =>
      by_cases hk : k = c
      · subst hk
        cases hv : lookupVal row k with
        | none => simp [List.filterMap_cons, projEntry, hv, ih]
        | some v =>
            by_cases hna : isNA v
            · simp [List.filterMap_cons, projEntry, hv, hna, ih]
            · simp [List.filterMap_cons, projEntry, hv, hna, ih]
      · cases hv : lookupVal row c with
        | none => simp [List.filterMap_cons, projEntry, hv, ih, hk]
        | some v =>
            by_cases hna : isNA v
            · simp [List.filterMap_cons, projEntry, hv, hna, ih, hk]
            · simp [List.filterMap_cons, projEntry, hv, hna, ih, hk, Ne.symm hk]

/-- C3: for every enriched row, the Record Mapper's candidate record
contains exactly the keys that are simultaneously in the persisted
schema, present in the row, and not a not-a-number marker — never a
key absent from the schema — and the `timestamp` field is then
unconditionally assigned the ingestion instant, overriding any
row-supplied timestamp. -/
theorem c3_record_mapper :
    ∀ (row : Row) (now : Nat) (k : String),
      (k ∈ (projectRow row).map Prod.fst ↔
        k ∈ schemaFields ∧ ∃ v, lookupVal row k = some v ∧ isNA v = false) ∧
      (k ∈ (recordData row now).map Prod.fst ↔
        (k ∈ schemaFields ∧ ∃ v, lookupVal row k = some v ∧ isNA v = false) ∨
          k = "timestamp") ∧
      (k ∈ (recordData row now).map Prod.fst → k ∈ schemaFields) ∧
      lookupVal (recordData row now) "timestamp" = some (Value.time now) := by
  intro row now k
  have hp := mem_keys_projectList row schemaFields k
  have hmem : k ∈ (recordData row now).map Prod.fst ↔
      (k ∈ schemaFields ∧ ∃ v, lookupVal row k = some v ∧ isNA v = false) ∨
        k = "timestamp" := by
    rw [recordData, mem_keys_setKey, projectRow, hp]
  refine ⟨hp, hmem, ?_, lookupVal_setKey_same _ _ _⟩
  intro hk
  rcases hmem.mp hk with h | h
  · exact h.1
  · subst h
    decide

/-- Witness for C3: the theorem applied to the concrete row `rowC3`. -/
theorem c3_witness :
    lookupVal (recordData rowC3 42) "timestamp" = some (Value.time 42) ∧
      ("extra_col" ∈ (recordData rowC3 42).map Prod.fst →
        "extra_col" ∈ schemaFields) :=
  ⟨(c3_record_mapper rowC3 42 "extra_col").2.2.2,
   (c3_record_mapper rowC3 42 "extra_col").2.2.1⟩

theorem lookupVal_rowAt (df : Frame) (i : Nat) (n : String) :
    lookupVal (rowAt df i) n =
      (getCol df n).map (fun cs => cs.getD i Value.nan) := by
  induction df with
  | nil => rfl
  | cons p df ih =>
      by_cases h : p.1 = n
      · simp [rowAt, lookupVal, getCol, h]
      · simp only [rowAt, List.map_cons, lookupVal, getCol, h, if_false,
          if_neg h] at ih ⊢
        exact ih

/-- `add_delta_and_oscillator` touches no column other than the target
and its two derived columns. -/
theorem getCol_add_delta_other (sq : ℚ → ℚ) (df : Frame) (col n : String)
    (w : Nat) (h1 : n ≠ col) (h2 : n ≠ "delta_" ++ col)
    (h3 : n ≠ "oscillator_" ++ col) :
    getCol (add_delta_and_oscillator sq df col w) n = getCol df n := by
  unfold add_delta_and_oscillator
  split
  · rfl
  · rw [getCol_setCol_ne _ _ _ _ h3, getCol_setCol_ne _ _ _ _ h2,
      getCol_setCol_ne _ _ _ _ h1]

/-- `engineer_features` touches no column other than the target and
the four derived columns. -/
theorem getCol_engineer_other (sq : ℚ → ℚ) (df out : Frame) (n : String)
    (heng : engineer_features sq df = Except.ok out)
    (h1 : n ≠ "avg_bat_speed") (h2 : n ≠ "delta_avg_bat_speed")
    (h3 : n ≠ "oscillator_avg_bat_speed") (h4 : n ≠ "cashout_signal")
    (h5 : n ≠ "pick_tracked") :
    getCol out n = getCol df n := by
  have h2' : n ≠ "delta_" ++ "avg_bat_speed" := fun hc => h2 (hc.trans rfl)
  have h3' : n ≠ "oscillator_" ++ "avg_bat_speed" := fun hc =>
    h3 (hc.trans rfl)
  simp only [engineer_features] at heng
  split at heng
  case _ osc0 hg =>
      split at heng
      case _ e hm => exact absurd heng (by simp)
      case _ bs hm =>
          injection heng with heng
          subst heng
          rw [getCol_setCol_ne _ _ _ _ h5, getCol_setCol_ne _ _ _ _ h4,
            getCol_add_delta_other sq df "avg_bat_speed" n 5 h1 h2' h3']
  case _ hg =>
      injection heng with heng
      subst heng
      rw [getCol_setCol_ne _ _ _ _ h5,
        getCol_add_delta_other sq df "avg_bat_speed" n 5 h1 h2' h3']

/-- C9 (amended): the Feature Engine's derived columns are named
`delta_avg_bat_speed` / `oscillator_avg_bat_speed`, neither of which
is a persisted schema field, so they are dropped by the
schema-intersection projection; consequently, whenever the uploaded
table does not itself supply a column named `delta_bat_speed` or
`oscillator_bat_speed`, every staged Record leaves both fields
unset. -/
theorem c9_derived_columns_dropped :
    ∀ (sq : ℚ → ℚ) (now : Nat) (df : Frame) (fn : String)
      (sums : List RowSummary) (recs : List Row),
      getCol df "delta_bat_speed" = none →
      getCol df "oscillator_bat_speed" = none →
      process_csv sq now (Except.ok df) fn = Except.ok (sums, recs) →
      ∀ r, r ∈ recs →
        lookupVal r "delta_bat_speed" = none ∧
        lookupVal r "oscillator_bat_speed" = none := by
  intro sq now df fn sums recs hd ho hp r hr
  simp only [process_csv] at hp
  split at hp
  case _ e hm => exact absurd hp (by simp)
  case _ out heng =>
      injection hp with hp
      have hrecs : recs =
          ((List.range (nRows out)).map (rowAt out)).map
            (fun r => recordData r now) := by
        have := congrArg Prod.snd hp
        simpa using this.symm
      subst hrecs
      simp only [List.mem_map] at hr
      obtain ⟨row, ⟨i, -, hrow⟩, hrec⟩ := hr
      subst hrec
      have hlookup : ∀ n, n ≠ "avg_bat_speed" → n ≠ "delta_avg_bat_speed" →
          n ≠ "oscillator_avg_bat_speed" → n ≠ "cashout_signal" →
          n ≠ "pick_tracked" → getCol df n = none →
          lookupVal row n = none := by
        intro n e1 e2 e3 e4 e5 hnone
        subst hrow
        rw [lookupVal_rowAt,
          getCol_engineer_other sq df out n heng e1 e2 e3 e4 e5, hnone]
        rfl
      have hkeys : ∀ n, n ≠ "timestamp" → lookupVal row n = none →
          lookupVal (recordData row now) n = none := by
        intro n hts hnone
        apply lookupVal_eq_none_of_not_mem
        rw [recordData, mem_keys_setKey, projectRow,
          mem_keys_projectList row schemaFields n]
        simp [hnone, hts]
      constructor
      · exact hkeys "delta_bat_speed" (by decide)
          (hlookup "delta_bat_speed" (by decide) (by decide) (by decide)
            (by decide) (by decide) hd)
      · exact hkeys "oscillator_bat_speed" (by decide)
          (hlookup "oscillator_bat_speed" (by decide) (by decide) (by decide)
            (by decide) (by decide) ho)

/-- Counterexample to C9 as stated: ingesting `dfC9` stages a Record
whose `delta_bat_speed` field is set (to 1), because the upload itself
carried that schema column; so not every persisted Record leaves the
delta field null. -/
theorem c9_counterexample :
    (process_csv (fun q => q) 0 (Except.ok dfC9) "stats.csv").map
        (fun p => p.2.map (fun r => lookupVal r "delta_bat_speed")) =
      Except.ok [some (Value.num 1)] := by
  rfl

/-- Witness for the amended C9 theorem at the concrete frame `dfC9w`. -/
theorem c9_witness :
    lookupVal recC9w "delta_bat_speed" = none ∧
      lookupVal recC9w "oscillator_bat_speed" = none :=
  c9_derived_columns_dropped (fun q => q) 0 dfC9w "stats.csv"
    [⟨Value.str "unknown", Value.str "unknown", some (Value.num 3), false,
      some Value.nan⟩]
    [recC9w] rfl rfl rfl recC9w (by decide)

/-- Counterexample to C5 as stated: a CSV stream with empty content
whose cursor starts at position 3 is reported corrupted ("Empty or
missing data"), yet its cursor stays at 3 instead of being reset to
the start: the code runs `seek(pos)` before the corruption checks, and
only the exception handler seeks to 0. -/
theorem c5_counterexample :
    is_csv_corrupted ⟨⟨[], none⟩, 3⟩ =
      ((true, some "Empty or missing data"), ⟨⟨[], none⟩, 3⟩) := by
  rfl

/-- C5 (amended): the CSV check restores the cursor to its original
position on every non-exception outcome (clean or detected
corruption) and resets it to 0 only when reading raises; the ZIP check
restores the cursor on a clean check, resets it to 0 when the archive
cannot be opened, and leaves it at the post-inspection position when
it reports an empty archive or unreadable entry metadata. -/
theorem c5_cursor_contract :
    (∀ (c : CsvContent) (p : Nat),
      (c.readErr = none → ((is_csv_corrupted ⟨c, p⟩).2).pos = p) ∧
      (∀ e, c.readErr = some e → ((is_csv_corrupted ⟨c, p⟩).2).pos = 0)) ∧
    (∀ (z : ZipView) (p : Nat),
      ((is_zip_corrupted ⟨z, p⟩).1.1 = false →
        ((is_zip_corrupted ⟨z, p⟩).2).pos = p) ∧
      (∀ e, z.archive = Except.error e →
        ((is_zip_corrupted ⟨z, p⟩).2).pos = 0) ∧
      (∀ entries, z.archive = Except.ok entries →
        (is_zip_corrupted ⟨z, p⟩).1.1 = true →
        ((is_zip_corrupted ⟨z, p⟩).2).pos = z.endPos)) := by
  constructor
  · intro c p
    constructor
    · intro he
      simp [is_csv_corrupted, he]
    · intro e he
      simp [is_csv_corrupted, he]
  · intro z p
    refine ⟨?_, ?_, ?_⟩
    · intro hclean
      rcases ha : z.archive with e | entries
      · simp [is_zip_corrupted, ha] at hclean
      · simp only [is_zip_corrupted, ha] at hclean ⊢
        cases hz : (zipCheck entries).1
        · simp [hz] at hclean ⊢
        · simp [hz] at hclean
    · intro e ha
      simp [is_zip_corrupted, ha]
    · intro entries ha hcorr
      simp only [is_zip_corrupted, ha] at hcorr ⊢
      cases hz : (zipCheck entries).1
      · simp [hz] at hcorr
      · simp [hz]

/-- Witness for the amended C5 theorem at concrete streams: a clean
two-record CSV keeps its cursor at 7, and a bad archive resets to 0. -/
theorem c5_witness :
    ((is_csv_corrupted ⟨⟨[["a"], ["b"]], none⟩, 7⟩).2).pos = 7 ∧
      ((is_zip_corrupted ⟨⟨Except.error "File is not a zip file", 9⟩, 4⟩).2).pos
        = 0 :=
  ⟨((c5_cursor_contract.1 ⟨[["a"], ["b"]], none⟩ 7).1 rfl),
   ((c5_cursor_contract.2 ⟨Except.error "File is not a zip file", 9⟩ 4).2.1
     "File is not a zip file" rfl)⟩

/-- Counterexample to C7 as stated: a CSV consisting of two blank
lines has a header record and a first data record with equal field
counts (0 and 0), yet the detector reports "Empty or missing data"
rather than not-corrupted, because Python's `not header` is true for
the empty record a blank line yields. -/
theorem c7_counterexample :
    (⟨⟨[[], []], none⟩, 0⟩ : CsvStream).content.records.get? 0 = some [] ∧
    (⟨⟨[[], []], none⟩, 0⟩ : CsvStream).content.records.get? 1 = some [] ∧
    (is_csv_corrupted ⟨⟨[[], []], none⟩, 0⟩).1 =
      (true, some "Empty or missing data") :=
  ⟨rfl, rfl, rfl⟩

/-- C7 (amended): the CSV Corruption Detector inspects only the header
record and the first data record — its verdict ignores all later
records; with reading succeeding, it reports "Empty or missing data"
when either of the first two records is missing or blank (zero
fields), reports corrupted with both counts named when two non-blank
records have different field counts, and reports not-corrupted when
two non-blank records have equal field counts. -/
theorem c7_csv_check :
    (∀ (c : CsvContent) (p : Nat), c.readErr = none →
      (c.records.get? 0 = none ∨ c.records.get? 0 = some [] ∨
          c.records.get? 1 = none ∨ c.records.get? 1 = some []) →
      (is_csv_corrupted ⟨c, p⟩).1 = (true, some "Empty or missing data")) ∧
    (∀ (header first_row : List String) (rest : List (List String)) (p : Nat),
      header ≠ [] → first_row ≠ [] →
      ((header.length ≠ first_row.length →
        (is_csv_corrupted ⟨⟨header :: first_row :: rest, none⟩, p⟩).1 =
          (true, some ("Header has " ++ Nat.repr header.length ++
            " columns, row has " ++ Nat.repr first_row.length))) ∧
      (header.length = first_row.length →
        (is_csv_corrupted ⟨⟨header :: first_row :: rest, none⟩, p⟩).1 =
          (false, none)))) := by
  constructor
  · intro c p he hcase
    simp only [is_csv_corrupted, he]
    rcases hcase with h | h | h | h
    · cases h1 : c.records.get? 1 <;>
        simp [csvCheck, ← List.get?_eq_getElem?, h, h1]
    · cases h1 : c.records.get? 1 <;>
        simp [csvCheck, ← List.get?_eq_getElem?, h, h1]
    · cases h0 : c.records.get? 0 <;>
        simp [csvCheck, ← List.get?_eq_getElem?, h, h0]
    · cases h0 : c.records.get? 0 <;>
        simp [csvCheck, ← List.get?_eq_getElem?, h, h0]
  · intro header first_row rest p hh hf
    have hh' : header.isEmpty = false := by
      cases header
      · exact absurd rfl hh
      · rfl
    have hf' : first_row.isEmpty = false := by
      cases first_row
      · exact absurd rfl hf
      · rfl
    constructor
    · intro hne
      simp [is_csv_corrupted, csvCheck, hh', hf', hne]
    · intro heq
      simp [is_csv_corrupted, csvCheck, hh', hf', heq]

/-- Witness for the amended C7 theorem at concrete streams: a 2-vs-1
column mismatch names both counts (and ignores the ragged third
record), and matching single-column records are clean. -/
theorem c7_witness :
    (is_csv_corrupted ⟨⟨[["a", "b"], ["1"], ["x", "y", "z"]], none⟩, 0⟩).1 =
        (true, some ("Header has " ++ Nat.repr (["a", "b"] : List String).length
          ++ " columns, row has " ++
          Nat.repr (["1"] : List String).length)) ∧
      (is_csv_corrupted ⟨⟨[["a"], ["1"], []], none⟩, 5⟩).1 = (false, none) :=
  ⟨(c7_csv_check.2 ["a", "b"] ["1"] [["x", "y", "z"]] 0 (by decide)
      (by decide)).1 (by decide),
   (c7_csv_check.2 ["a"] ["1"] [[]] 5 (by decide) (by decide)).2 rfl⟩

/-- Counterexample to C6 as stated: one accepted file with two rows
yields `files_processed = 2` — the length of the row-summary list —
although the number of files whose rows were successfully summarized
is 1. -/
theorem c6_counterexample :
    (upload_stats (fun q => q) 0 (some [fileC6]) none ⟨[], 0⟩).1 =
        UploadResponse.success "INGESTION COMPLETE" []
          [⟨Value.str "unknown", Value.str "a", none, false, none⟩,
           ⟨Value.str "unknown", Value.str "b", none, false, none⟩] 2 ∧
      [fileC6].length = 1 :=
  ⟨rfl, rfl⟩

/-- C6 (amended): in every successful ingestion response,
`files_processed` equals the length of the row-summary list
(`len(results)`), not the number of accepted files. -/
theorem c6_files_processed :
    ∀ (sq : ℚ → ℚ) (now : Nat) (files : Option (List FileStorage))
      (commitErr : Option String) (db : DB) (status : String)
      (alerts : List String) (results : List RowSummary) (n : Nat),
      (upload_stats sq now files commitErr db).1 =
        UploadResponse.success status alerts results n →
      n = results.length := by
  intro sq now files commitErr db status alerts results n h
  simp only [upload_stats] at h
  split at h
  · exact absurd h (by simp)
  · split at h
    · exact absurd h (by simp)
    · split at h
      · exact absurd h (by simp)
      · injection h with h1 h2 h3 h4
        subst h3
        subst h4
        rfl

/-- Witness for the amended C6 theorem at a concrete empty batch. -/
theorem c6_witness : (0 : Nat) = ([] : List RowSummary).length :=
  c6_files_processed (fun q => q) 0 (some []) none ⟨[], 0⟩
    "INGESTION COMPLETE" [] [] 0 rfl

/-- C8: when the end-of-batch commit raises, the store is unchanged
(the rollback discards every record staged during the batch) and the
call returns a single server-level error whose shape carries no alert
list and no result list; when the commit succeeds, the records
accumulated across all accepted files are appended to the store
together by exactly one commit. -/
theorem c8_commit :
    ∀ (sq : ℚ → ℚ) (now : Nat) (files : List FileStorage) (db : DB),
      (∀ e, (upload_stats sq now (some files) (some e) db).2 = db ∧
        ∃ m, (upload_stats sq now (some files) (some e) db).1 =
          UploadResponse.serverError m) ∧
      (∀ (st : BatchState),
        foldlE (processOneFile sq now) ⟨[], [], []⟩ files = Except.ok st →
        upload_stats sq now (some files) none db =
          (UploadResponse.success "INGESTION COMPLETE" st.alerts st.results
            st.results.length,
           ⟨db.committed ++ st.pending, db.commits + 1⟩)) := by
  intro sq now files db
  constructor
  · intro e
    simp only [upload_stats]
    split
    · exact ⟨rfl, _, rfl⟩
    · exact ⟨rfl, _, rfl⟩
  · intro st hst
    simp [upload_stats, hst]

/-- Witness for C8 at a concrete empty batch: a failing commit leaves
the store untouched; a successful one issues exactly one commit. -/
theorem c8_witness :
    (upload_stats (fun q => q) 0 (some []) (some "disk full") ⟨[], 0⟩).2 =
        ⟨[], 0⟩ ∧
      upload_stats (fun q => q) 0 (some []) none ⟨[], 0⟩ =
        (UploadResponse.success "INGESTION COMPLETE" [] [] 0, ⟨[], 1⟩) :=
  ⟨((c8_commit (fun q => q) 0 [] ⟨[], 0⟩).1 "disk full").1,
   (c8_commit (fun q => q) 0 [] ⟨[], 0⟩).2 ⟨[], [], []⟩ rfl⟩

/-- Counterexample to C4 as stated: a processing failure of a single
top-level CSV file is NOT recovered as an alert — it escapes the
per-file scope, aborts the batch and surfaces as the server-level
error, even though the commit step itself never ran into trouble. -/
theorem c4_counterexample :
    upload_stats (fun q => q) 0 (some [fileC4]) none ⟨[], 0⟩ =
      (UploadResponse.serverError
        ("Server error: Error processing bad.csv: Error tokenizing data. C error: Expected 2 fields in line 3, saw 3"),
       ⟨[], 0⟩) := by
  rfl

/-- C4 (amended): every failure of a file that is not dispatched as a
top-level `.csv` — empty names, ZIP archives including all their
per-entry failures, and unsupported extensions — is recovered inside
the loop and surfaces at worst as an alert (`processOneFile` cannot
raise for such files); and a batch in which every file processes
without raising, with a healthy commit, returns the success response.
A top-level CSV whose parse/enrichment raises, however, fails the
whole call (see the counterexample), as does a commit failure. -/
theorem c4_error_propagation :
    (∀ (sq : ℚ → ℚ) (now : Nat) (st : BatchState) (fs : FileStorage),
      (strEndsWith (secure_filename fs.filename) ".csv" = false ∨
        strEndsWith (secure_filename fs.filename) ".zip" = true) →
      ∃ st2, processOneFile sq now st fs = Except.ok st2) ∧
    (∀ (sq : ℚ → ℚ) (now : Nat) (files : List FileStorage) (db : DB),
      (∀ fs, fs ∈ files → ∀ st, ∃ st2,
        processOneFile sq now st fs = Except.ok st2) →
      ∃ (st : BatchState), upload_stats sq now (some files) none db =
        (UploadResponse.success "INGESTION COMPLETE" st.alerts st.results
          st.results.length,
         ⟨db.committed ++ st.pending, db.commits + 1⟩)) := by
  constructor
  · intro sq now st fs hdisp
    by_cases h0 : fs.filename = ""
    · exact ⟨st, by simp [processOneFile, h0]⟩
    · cases hz : strEndsWith (secure_filename fs.filename) ".zip" with
      | true =>
          rcases h1 : (is_zip_corrupted ⟨fs.zipView, 0⟩).1 with ⟨b, reason⟩
          cases b
          · rcases ha : fs.zipView.archive with e | entries
            · simp [processOneFile, h0, hz, h1, ha]
            · simp [processOneFile, h0, hz, h1, ha]
          · simp [processOneFile, h0, hz, h1]
      | false =>
          rcases hdisp with hcsv | hzip
          · simp [processOneFile, h0, hz, hcsv]
          · rw [hzip] at hz
            exact absurd hz (by decide)
  · intro sq now files db hall
    have hfold : ∀ (l : List FileStorage),
        (∀ fs, fs ∈ l → ∀ st, ∃ st2,
          processOneFile sq now st fs = Except.ok st2) →
        ∀ init, ∃ st, foldlE (processOneFile sq now) init l =
          Except.ok st := by
      intro l
      induction l with
      | nil => exact fun _ init => ⟨init, rfl⟩
      | cons a as ih =>
          intro hl init
          obtain ⟨st1, h1⟩ := hl a (by simp) init
          obtain ⟨st2, h2⟩ :=
            ih (fun fs hfs st => hl fs (by simp [hfs]) st) st1
          exact ⟨st2, by simp [foldlE, h1, h2]⟩
    obtain ⟨st, hst⟩ := hfold files hall ⟨[], [], []⟩
    exact ⟨st, by simp [upload_stats, hst]⟩

/-- Witness for the amended C4 theorem: a `.txt` file cannot raise,
and the empty batch with a healthy commit succeeds. -/
theorem c4_witness :
    (∃ st2, processOneFile (fun q => q) 0 ⟨[], [], []⟩ fileTxt =
        Except.ok st2) ∧
      ∃ (st : BatchState), upload_stats (fun q => q) 0 (some []) none ⟨[], 0⟩ =
        (UploadResponse.success "INGESTION COMPLETE" st.alerts st.results
          st.results.length,
         ⟨(⟨[], 0⟩ : DB).committed ++ st.pending,
          (⟨[], 0⟩ : DB).commits + 1⟩) :=
  ⟨c4_error_propagation.1 (fun q => q) 0 ⟨[], [], []⟩ fileTxt
      (Or.inl (by decide)),
   c4_error_propagation.2 (fun q => q) 0 [] ⟨[], 0⟩
      (fun fs hfs st => absurd hfs (by simp))⟩

/-- C10: the extension dispatch is case-sensitive.  A non-empty
uploaded file whose sanitized name ends in neither lowercase `.zip`
nor lowercase `.csv` only appends an `Unsupported file type` alert —
it is never validated, parsed, or staged for persistence (results and
pending records are untouched); a ZIP entry whose name does not end
in lowercase `.csv` is skipped silently, with no alert at all. -/
theorem c10_extension_dispatch :
    (∀ (sq : ℚ → ℚ) (now : Nat) (st : BatchState) (fs : FileStorage),
      fs.filename ≠ "" →
      strEndsWith (secure_filename fs.filename) ".zip" = false →
      strEndsWith (secure_filename fs.filename) ".csv" = false →
      processOneFile sq now st fs =
        Except.ok ⟨st.alerts ++ ["Unsupported file type: " ++
          secure_filename fs.filename], st.results, st.pending⟩) ∧
    (∀ (sq : ℚ → ℚ) (now : Nat) (st : BatchState) (e : ZipEntry),
      strEndsWith e.filename ".csv" = false →
      processZipEntry sq now st e = st) := by
  constructor
  · intro sq now st fs h0 hz hc
    simp [processOneFile, h0, hz, hc]
  · intro sq now st e hc
    simp [processZipEntry, hc]

/-- Witness for C10: `data.CSV` (sanitized unchanged) is rejected as
unsupported, and the ZIP entry `inner.CSV` is skipped silently. -/
theorem c10_witness :
    processOneFile (fun q => q) 0 ⟨[], [], []⟩ fileUpperCsv =
        Except.ok ⟨[] ++ ["Unsupported file type: " ++
          secure_filename "data.CSV"], [], []⟩ ∧
      processZipEntry (fun q => q) 0 ⟨[], [], []⟩
          ⟨"inner.CSV", false, none, ⟨[["a"], ["1"]], none⟩,
           Except.ok [("a", [Value.num 1])]⟩ = ⟨[], [], []⟩ :=
  ⟨c10_extension_dispatch.1 (fun q => q) 0 ⟨[], [], []⟩ fileUpperCsv
      (by decide) (by decide) (by decide),
   c10_extension_dispatch.2 (fun q => q) 0 ⟨[], [], []⟩
      ⟨"inner.CSV", false, none, ⟨[["a"], ["1"]], none⟩,
       Except.ok [("a", [Value.num 1])]⟩ (by decide)⟩
